import Mathlib

/-!
Verification of the NDVI raster-to-report pipeline (src/app.py) against its
specification. The Python functions `process_ndvi_raster` and
`generate_pdf_report` are embedded shallowly: the raster band is a grid of
rationals, NaN is `Option.none`, numpy reductions over the valid values are
list folds, and the side effects of a run (directory creation, the upload
written to disk, the raster opened, preview and metadata saved) are an
explicit event trace in program order.
-/

namespace NdviApp

/-- A decoded raster, the data `rasterio.open` exposes: band 1 as a grid of
floats (modelled as rationals), the optional nodata sentinel, the CRS string,
the bounding extent and the two scale terms of the affine transform
(`transform[0]` and `transform[4]`). `bandCount` records how many bands the
file holds; `process_ndvi_raster` reads only band 1 and never consults the
band count. -/
structure Raster where
  bandCount : Nat
  band1 : List (List ℚ)
  nodata : Option ℚ
  crs : String
  left : ℚ
  bottom : ℚ
  right : ℚ
  top : ℚ
  tA : ℚ
  tE : ℚ
deriving DecidableEq, Repr

/-- An uploaded file: `decodesTo = none` models bytes `rasterio.open`
rejects, `some r` a readable raster. -/
structure Upload where
  name : String
  decodesTo : Option Raster
deriving Repr

/-- One cell after sanitization (src/app.py lines 91-94):
`arr = src.read(1).astype(float)`, then, when a nodata sentinel is
configured, `arr[arr == nodata] = np.nan`. `none` is NaN. No other
replacement is performed. -/
def sanitize (nodata : Option ℚ) (v : ℚ) : Option ℚ :=
  match nodata with
  | some nd => if v = nd then none else some v
  | none => some v

/-- The sanitized band of `process_ndvi_raster`: the nodata substitution
applied cell-wise to band 1. -/
def sanitizeProcess (r : Raster) : List (List (Option ℚ)) :=
  r.band1.map (fun row => row.map (sanitize r.nodata))

/-- `valid_arr = arr[~np.isnan(arr)]` (line 101): the non-NaN values of the
grid, row-major. -/
def validValues (arr : List (List (Option ℚ))) : List ℚ :=
  arr.flatten.filterMap id

/-- The errors a pipeline run can surface. `decodeError` is `rasterio.open`
failing on unreadable bytes; `unsupportedBandCount` is the band-count
rejection the specification names (no code path in src/app.py produces it);
`valueErrorEmptyReduce` is the `ValueError` numpy raises when
`np.nanmin`/`np.nanmax` reduce a zero-size array (lines 105-106 on an
all-NaN band). -/
inductive PipeError where
  | decodeError
  | unsupportedBandCount
  | valueErrorEmptyReduce
deriving DecidableEq, Repr

/-- The statistics and spatial metadata `process_ndvi_raster` derives
(lines 96-106). -/
structure StatsRecord where
  validCount : Nat
  pixelArea : ℚ
  areaM2 : ℚ
  areaHa : ℚ
  meanVal : ℚ
  minVal : ℚ
  maxVal : ℚ
  crs : String
  xmin : ℚ
  ymin : ℚ
  xmax : ℚ
  ymax : ℚ
deriving DecidableEq, Repr

/-- Lines 96-106 of `process_ndvi_raster`: pixel area from the transform's
scale terms, areas from the valid-pixel count, then
`np.nanmean` / `np.nanmin` / `np.nanmax` over `valid_arr`. On an empty
`valid_arr`, `np.nanmean` only warns and yields NaN, but `np.nanmin`
(line 105) raises `ValueError: zero-size array to reduction operation`,
so the run aborts there. -/
def computeRun (r : Raster) : Except PipeError StatsRecord :=
  let pixelArea := |r.tA * r.tE|
  match validValues (sanitizeProcess r) with
  | [] => .error .valueErrorEmptyReduce
  | x :: rest =>
      .ok { validCount := (x :: rest).length
            pixelArea := pixelArea
            areaM2 := ((x :: rest).length : ℚ) * pixelArea
            areaHa := ((x :: rest).length : ℚ) * pixelArea / 10000
            meanVal := (x :: rest).sum / ((x :: rest).length : ℚ)
            minVal := rest.foldl min x
            maxVal := rest.foldl max x
            crs := r.crs
            xmin := r.left
            ymin := r.bottom
            xmax := r.right
            ymax := r.top }

/-! ### Preview rendering (lines 109-115)

`plt.imshow(arr, cmap='RdYlGn')` is called with no `vmin`/`vmax`, so
matplotlib autoscales its norm to the finite data range of `arr`: each
finite value `v` is mapped to `(v - dmin) / (dmax - dmin)` before the
RdYlGn colormap is sampled; NaN cells get the colormap's bad color. -/

/-- Minimum of a nonempty list of rationals, `none` on the empty list. -/
def listMinQ (xs : List ℚ) : Option ℚ :=
  match xs with
  | [] => none
  | x :: rest => some (rest.foldl min x)

/-- Maximum of a nonempty list of rationals, `none` on the empty list. -/
def listMaxQ (xs : List ℚ) : Option ℚ :=
  match xs with
  | [] => none
  | x :: rest => some (rest.foldl max x)

/-- matplotlib's autoscaled normalization: rescale `v` linearly to the
grid's own finite minimum and maximum (equal bounds normalize to 0, as
`matplotlib.colors.Normalize` does). -/
def autoNorm (arr : List (List (Option ℚ))) (v : ℚ) : ℚ :=
  match listMinQ (validValues arr), listMaxQ (validValues arr) with
  | some lo, some hi => if lo = hi then 0 else (v - lo) / (hi - lo)
  | _, _ => 0

/-- The color of a rendered pixel: a sample position on the RdYlGn
colormap, or the bad color for NaN. -/
inductive PixelColor where
  | missing
  | rdylgn (t : ℚ)
deriving DecidableEq, Repr

/-- The color `plt.imshow(arr, cmap='RdYlGn')` gives one cell. -/
def previewColor (arr : List (List (Option ℚ))) (cell : Option ℚ) : PixelColor :=
  match cell with
  | none => .missing
  | some v => .rdylgn (autoNorm arr v)

/-- The full rendered preview grid. -/
def previewImage (arr : List (List (Option ℚ))) : List (List PixelColor) :=
  arr.map (fun row => row.map (previewColor arr))

/-! ### Metadata formatting (lines 118-127)

Python's fixed-point formats `:.2f`, `:,.2f` and `:.4f` over the computed
statistics. -/

/-- One decimal digit character. -/
def digitChar (n : Nat) : Char :=
  match n with
  | 0 => '0' | 1 => '1' | 2 => '2' | 3 => '3' | 4 => '4'
  | 5 => '5' | 6 => '6' | 7 => '7' | 8 => '8' | _ => '9'

/-- Exactly `d` decimal digits of `m`, most significant first, zero-padded
on the left. -/
def natDigitsFixed : Nat → Nat → List Char
  | _, 0 => []
  | m, d + 1 => natDigitsFixed (m / 10) d ++ [digitChar (m % 10)]

/-- The decimal digits of `m`, most significant first ("0" for 0). -/
def natDigits (m : Nat) : List Char :=
  Nat.toDigits 10 m

/-- Insert a thousands comma after every third character of a reversed
digit list (Python's `,` format option). -/
def groupRev : List Char → List Char
  | a :: b :: c :: d :: rest => a :: b :: c :: ',' :: groupRev (d :: rest)
  | l => l

/-- Thousands grouping of a digit list given most significant first. -/
def groupDigits (ds : List Char) : List Char :=
  (groupRev ds.reverse).reverse

/-- The integer `round(q * 10^d)` whose decimal expansion fixed-point
formatting prints. -/
def scaledInt (q : ℚ) (d : Nat) : ℤ :=
  round (q * (10 : ℚ) ^ d)

/-- The `d` digits printed after the decimal point. -/
def fracDigitsOf (q : ℚ) (d : Nat) : List Char :=
  natDigitsFixed ((scaledInt q d).natAbs % 10 ^ d) d

/-- Python's `f"{q:.{d}f}"`: sign, integer part, point, exactly `d`
fractional digits. -/
def formatFixed (q : ℚ) (d : Nat) : String :=
  (if scaledInt q d < 0 then "-" else "")
    ++ String.mk (natDigits ((scaledInt q d).natAbs / 10 ^ d))
    ++ "." ++ String.mk (fracDigitsOf q d)

/-- Python's `f"{q:,.{d}f}"`: as `formatFixed` with the integer digits
grouped by thousands. -/
def formatGrouped (q : ℚ) (d : Nat) : String :=
  (if scaledInt q d < 0 then "-" else "")
    ++ String.mk (groupDigits (natDigits ((scaledInt q d).natAbs / 10 ^ d)))
    ++ "." ++ String.mk (fracDigitsOf q d)

/-- How many characters follow the last `.` of a rendered number. -/
def decimalPlaces (s : String) : Nat :=
  (s.data.reverse.takeWhile (fun c => c != '.')).length

/-- The metadata block of lines 118-127, one string per line, in source
order: projection, extent at 2 decimals, areas (m² grouped, ha at 2
decimals), mean/min/max at 4 decimals, timestamp. -/
def metadataLines (s : StatsRecord) (now : String) : List String :=
  [ "Projection: " ++ s.crs,
    "Extent (xmin, ymin, xmax, ymax): " ++ formatFixed s.xmin 2 ++ ", "
      ++ formatFixed s.ymin 2 ++ ", " ++ formatFixed s.xmax 2 ++ ", "
      ++ formatFixed s.ymax 2,
    "Area: " ++ formatGrouped s.areaM2 2 ++ " m2 (" ++ formatFixed s.areaHa 2 ++ " ha)",
    "Mean NDVI: " ++ formatFixed s.meanVal 4,
    "Min NDVI: " ++ formatFixed s.minVal 4,
    "Max NDVI: " ++ formatFixed s.maxVal 4,
    "Processed on: " ++ now ]

/-! ### The pipeline with its side effects (process_ndvi_raster) -/

/-- The side effects of `process_ndvi_raster`, in program order:
`os.makedirs` (line 83), the upload written to disk (lines 86-88),
`rasterio.open` (line 90), `src.read(1)` (line 91), the preview PNG saved
(line 114), the metadata file written (lines 128-129). -/
inductive Event where
  | makeDir
  | fileWrite
  | rasterOpen
  | readBand (n : Nat)
  | savePreview
  | saveMetadata
deriving DecidableEq, Repr

/-- Everything a successful run produces. -/
structure RunArtifacts where
  stats : StatsRecord
  preview : List (List PixelColor)
  metadata : List String
deriving DecidableEq, Repr

/-- `process_ndvi_raster(tif_file, folder_name)` at wall-clock time `now`:
the event trace together with the run's outcome. The upload is written to
disk before the raster is opened; decoding failure or the numpy
`ValueError` abort the run after that write. -/
def runPipeline (up : Upload) (now : String) : List Event × Except PipeError RunArtifacts :=
  match up.decodesTo with
  | none => ([.makeDir, .fileWrite, .rasterOpen], .error .decodeError)
  | some r =>
    match computeRun r with
    | .error e => ([.makeDir, .fileWrite, .rasterOpen, .readBand 1], .error e)
    | .ok s =>
        ([.makeDir, .fileWrite, .rasterOpen, .readBand 1, .savePreview, .saveMetadata],
         .ok { stats := s
               preview := previewImage (sanitizeProcess r)
               metadata := metadataLines s now })

/-! ### The PDF report's histogram panel (generate_pdf_report, lines 54-69) -/

/-- One `axvline` marker: position, color, linestyle. -/
structure HistMarker where
  pos : ℚ
  color : String
  style : String
deriving DecidableEq, Repr

/-- The histogram panel: either a histogram of the given data with the
given bin count and markers, or the placeholder text drawn when no raster
was found. -/
inductive HistPanel where
  | histogram (data : List ℚ) (bins : Nat) (markers : List HistMarker)
  | placeholder (msg : String)
deriving DecidableEq, Repr

/-- The sanitization `generate_pdf_report` performs after re-reading the
saved GeoTIFF (lines 33-36): `arr = src.read(1).astype(float)` then, when
nodata is configured, `arr[arr == nodata] = np.nan`. -/
def sanitizePdf (r : Raster) : List (List (Option ℚ)) :=
  r.band1.map (fun row => row.map (fun v =>
    match r.nodata with
    | some nd => if v = nd then none else some v
    | none => some v))

/-- Lines 54-69 of `generate_pdf_report`: when a .tif was found, bin
`valid_arr` into 30 bins and draw the mean (blue, dashed), min (red,
dotted) and max (orange, dotted) markers; `np.nanmin` over an empty
`valid_arr` raises. When no .tif was found (`arr is None`), draw the
placeholder text instead. -/
def histPanelOf (arr : Option (List (List (Option ℚ)))) : Except PipeError HistPanel :=
  match arr with
  | none => .ok (.placeholder "Histogram data not found")
  | some a =>
    match validValues a with
    | [] => .error .valueErrorEmptyReduce
    | x :: rest =>
        .ok (.histogram (x :: rest) 30
          [ { pos := (x :: rest).sum / ((x :: rest).length : ℚ), color := "blue", style := "--" },
            { pos := rest.foldl min x, color := "red", style := ":" },
            { pos := rest.foldl max x, color := "orange", style := ":" } ])

/-- The mean, min and max `generate_pdf_report` recomputes from the saved
GeoTIFF for its histogram markers (lines 56-63). The saved file holds the
upload's bytes verbatim, so it decodes to the same raster. -/
def pdfRecomputedStats (r : Raster) : Except PipeError (ℚ × ℚ × ℚ) :=
  match validValues (sanitizePdf r) with
  | [] => .error .valueErrorEmptyReduce
  | x :: rest =>
      .ok ((x :: rest).sum / ((x :: rest).length : ℚ), rest.foldl min x, rest.foldl max x)

/-! ### Concrete inputs -/

/-- The specification's concrete scenario: a 4×4 grid, pixel scale 10×10
(vertical scale negative, as for a north-up raster), nodata -9999, values
`[[-9999, 0.2, 0.5, 1.0], [0.3, -9999, 0.8, -2.0],
[0.1, 0.2, 0.3, 0.4], [0.5, 0.6, 0.7, 0.8]]`. -/
def raster4 : Raster :=
  { bandCount := 1
    band1 := [[-9999, 1/5, 1/2, 1], [3/10, -9999, 4/5, -2],
              [1/10, 1/5, 3/10, 2/5], [1/2, 3/5, 7/10, 4/5]]
    nodata := some (-9999)
    crs := "EPSG:32633"
    left := 0, bottom := 0, right := 40, top := 40
    tA := 10, tE := -10 }

/-- What `process_ndvi_raster` computes on `raster4`. -/
def stats4 : StatsRecord :=
  { validCount := 14, pixelArea := 100, areaM2 := 1400, areaHa := 7/50,
    meanVal := 11/35, minVal := -2, maxVal := 1, crs := "EPSG:32633",
    xmin := 0, ymin := 0, xmax := 40, ymax := 40 }

/-- A 1×1 raster whose single value 2 lies outside [-1, 1]. -/
def rasterOutOfRange : Raster :=
  { bandCount := 1, band1 := [[2]], nodata := some (-9999),
    crs := "EPSG:32633", left := 0, bottom := 0, right := 10, top := 10,
    tA := 10, tE := -10 }

/-- A 2×2 raster every cell of which equals the nodata sentinel. -/
def rasterAllNodata : Raster :=
  { bandCount := 1, band1 := [[-9999, -9999], [-9999, -9999]],
    nodata := some (-9999), crs := "EPSG:32633",
    left := 0, bottom := 0, right := 20, top := 20, tA := 10, tE := -10 }

/-- The all-nodata raster as an uploaded file. -/
def uploadAllNodata : Upload :=
  { name := "allnodata.tif", decodesTo := some rasterAllNodata }

/-- A raster file holding three bands; band 1 holds the values 0 and 1. -/
def raster3band : Raster :=
  { bandCount := 3, band1 := [[0, 1]], nodata := none,
    crs := "EPSG:32633", left := 0, bottom := 0, right := 20, top := 10,
    tA := 10, tE := -10 }

/-- The 3-band raster as an uploaded file. -/
def upload3band : Upload :=
  { name := "threeband.tif", decodesTo := some raster3band }

/-- A 1×2 raster with values 0 and 1 and no nodata sentinel. -/
def rasterA : Raster :=
  { bandCount := 1, band1 := [[0, 1]], nodata := none,
    crs := "EPSG:32633", left := 0, bottom := 0, right := 20, top := 10,
    tA := 10, tE := -10 }

/-- A 1×2 raster with values 1 and 2 and no nodata sentinel. -/
def rasterB : Raster :=
  { bandCount := 1, band1 := [[1, 2]], nodata := none,
    crs := "EPSG:32633", left := 0, bottom := 0, right := 20, top := 10,
    tA := 10, tE := -10 }

/-! ### Helper lemmas -/

/-- Evaluating the stats step on the specification's 4×4 scenario. -/
theorem computeRun_raster4_eq : computeRun raster4 = .ok stats4 := by
  norm_num [computeRun, raster4, stats4, sanitizeProcess, sanitize, validValues,
    List.filterMap_cons, List.sum_cons, min_def, max_def]

/-- The only error the stats step itself produces is numpy's zero-size
reduction `ValueError`. -/
theorem computeRun_error_eq (r : Raster) (e : PipeError)
    (h : computeRun r = .error e) : e = .valueErrorEmptyReduce := by
  unfold computeRun at h
  split at h
  · exact (Except.error.injEq _ _).mp h |>.symm
  · exact absurd h (by simp)

/-- No decimal digit character is the decimal point. -/
theorem digitChar_ne_dot (n : Nat) : digitChar n ≠ '.' := by
  unfold digitChar
  split <;> decide

/-- The zero-padded fixed-width digit run has exactly the requested
width, whatever the number. -/
theorem natDigitsFixed_length (d : Nat) : ∀ m, (natDigitsFixed m d).length = d := by
  induction d with
  | zero => intro m; rfl
  | succ d ih => intro m; simp [natDigitsFixed, ih]

/-- Fixed-width digit runs contain no decimal point. -/
theorem natDigitsFixed_ne_dot (d : Nat) : ∀ m c, c ∈ natDigitsFixed m d → c ≠ '.' := by
  induction d with
  | zero => intro m c hc; simp [natDigitsFixed] at hc
  | succ d ih =>
      intro m c hc
      simp [natDigitsFixed] at hc
      rcases hc with h | h
      · exact ih _ c h
      · subst h; exact digitChar_ne_dot _

/-- Scanning from the end, a dot-free prefix placed before a dot is
exactly what `takeWhile` keeps. -/
theorem takeWhile_stops_at_dot (a rest : List Char) (ha : ∀ c ∈ a, c ≠ '.') :
    (a ++ '.' :: rest).takeWhile (fun c => c != '.') = a := by
  induction a with
  | nil => simp
  | cons x xs ih =>
      have hx : x ≠ '.' := ha x (List.mem_cons_self x xs)
      simp [List.takeWhile_cons, hx, ih (fun c hc => ha c (List.mem_cons_of_mem x hc))]

/-- Whatever precedes the decimal point, a rendered number ending in the
`d` fractional digits has exactly `d` decimal places. -/
theorem decimalPlaces_append_frac (s : String) (q : ℚ) (d : Nat) :
    decimalPlaces (s ++ "." ++ String.mk (fracDigitsOf q d)) = d := by
  unfold decimalPlaces
  have hfrac : ∀ c ∈ (fracDigitsOf q d).reverse, c ≠ '.' := by
    intro c hc
    exact natDigitsFixed_ne_dot d _ c (List.mem_reverse.mp hc)
  simp only [String.data_append, List.reverse_append, List.append_assoc]
  simp only [List.reverse_cons, List.reverse_nil, List.nil_append, List.singleton_append]
  rw [takeWhile_stops_at_dot _ _ hfrac, List.length_reverse]
  exact natDigitsFixed_length d _

/-- `f"{q:.{d}f}"` always shows exactly `d` decimal places. -/
theorem decimalPlaces_formatFixed (q : ℚ) (d : Nat) :
    decimalPlaces (formatFixed q d) = d := by
  unfold formatFixed
  exact decimalPlaces_append_frac _ q d

/-- `f"{q:,.{d}f}"` always shows exactly `d` decimal places. -/
theorem decimalPlaces_formatGrouped (q : ℚ) (d : Nat) :
    decimalPlaces (formatGrouped q d) = d := by
  unfold formatGrouped
  exact decimalPlaces_append_frac _ q d

/-! ### Claims -/

/-- C1, counterexample: sanitization does not replace elements outside
[-1, 1]. The 1×1 raster holding the value 2 (nodata -9999) sanitizes to a
non-missing cell whose value 2 lies outside the closed interval [-1, 1]. -/
theorem c1_counterexample :
    sanitizeProcess rasterOutOfRange = [[some 2]] ∧
    ¬ ((-1 : ℚ) ≤ 2 ∧ (2 : ℚ) ≤ 1) := by
  constructor
  · norm_num [sanitizeProcess, sanitize, rasterOutOfRange]
  · norm_num

/-- C1 (amended): sanitization replaces exactly the elements equal to the
nodata sentinel with missing and applies no [-1, 1] bound check: a
sanitized cell is missing precisely when a nodata sentinel is configured
and the cell equals it, and every other cell keeps its original value,
even one outside [-1, 1]. -/
theorem c1_sanitize_nodata_only (nodata : Option ℚ) (v : ℚ) :
    (sanitize nodata v = none ↔ nodata = some v) ∧
    (sanitize nodata v = none ∨ sanitize nodata v = some v) := by
  cases nodata with
  | none => simp [sanitize]
  | some nd =>
    by_cases h : v = nd
    · simp [sanitize, h]
    · simp [sanitize, h, Ne.symm h]

/-- C2, counterexample: on the specification's 4×4 scenario the code's
sanitize+compute steps leave the value -2.0 (flattened position 7) in the
array as a non-missing cell, and the minimum over the 14 valid values is
-2, not 0.1. -/
theorem c2_counterexample :
    (computeRun raster4).map StatsRecord.minVal = .ok (-2) ∧
    (sanitizeProcess raster4).flatten[7]? = some (some ((-2 : ℚ))) ∧
    ¬ ((-2 : ℚ) = 1/10) := by
  refine ⟨by rw [computeRun_raster4_eq]; rfl, ?_, by norm_num⟩
  norm_num [sanitizeProcess, sanitize, raster4, List.getElem?_cons_zero,
    List.getElem?_cons_succ]

/-- C2 (amended): on the 4×4 scenario the sanitize+compute steps mark
missing exactly the two -9999 cells (the -2.0 cell stays valid), so 14
valid pixels remain, total area is 1400, hectare area 0.14, minimum -2.0,
maximum 1.0, and the mean is the average of the 14 valid values,
11/35 ≈ 0.314. -/
theorem c2_scenario :
    computeRun raster4 = .ok stats4 ∧
    stats4.validCount = 14 ∧ stats4.areaM2 = 1400 ∧ stats4.areaHa = 7/50 ∧
    stats4.minVal = -2 ∧ stats4.maxVal = 1 ∧ stats4.meanVal = 11/35 ∧
    (sanitizeProcess raster4).flatten[0]? = some none ∧
    (sanitizeProcess raster4).flatten[5]? = some none ∧
    ((sanitizeProcess raster4).flatten.filter Option.isNone).length = 2 := by
  refine ⟨computeRun_raster4_eq, rfl, rfl, rfl, rfl, rfl, rfl, ?_, ?_, ?_⟩ <;>
    norm_num [sanitizeProcess, sanitize, raster4, List.filter_cons,
      List.getElem?_cons_zero, List.getElem?_cons_succ, Option.isNone]

/-- C3: a run whose band is entirely nodata. The stats step does raise:
`np.nanmin` over the zero-size valid array throws `ValueError`, the run
aborts after the upload was already written to disk, and neither the
preview nor the metadata file is produced. -/
theorem c3_all_missing_run_raises :
    runPipeline uploadAllNodata "2024-01-01 00:00:00" =
      ([.makeDir, .fileWrite, .rasterOpen, .readBand 1],
       .error .valueErrorEmptyReduce) ∧
    Event.saveMetadata ∉ (runPipeline uploadAllNodata "2024-01-01 00:00:00").1 ∧
    Event.savePreview ∉ (runPipeline uploadAllNodata "2024-01-01 00:00:00").1 := by
  have h : computeRun rasterAllNodata = .error .valueErrorEmptyReduce := by
    norm_num [computeRun, rasterAllNodata, sanitizeProcess, sanitize, validValues,
      List.filterMap_cons]
  refine ⟨?_, ?_, ?_⟩ <;>
    simp [runPipeline, uploadAllNodata, h]

/-- C4, counterexample: a 3-band raster is not rejected. The run completes
with no `UnsupportedBandCountError`, and the uploaded file is written to
disk (second event) before the raster is even opened (third event). -/
theorem c4_counterexample :
    raster3band.bandCount = 3 ∧
    (runPipeline upload3band "t").1 =
      [.makeDir, .fileWrite, .rasterOpen, .readBand 1, .savePreview, .saveMetadata] ∧
    (runPipeline upload3band "t").2 ≠ .error .unsupportedBandCount ∧
    (runPipeline upload3band "t").2.isOk = true := by
  have h : computeRun raster3band = .ok
      { validCount := 2, pixelArea := 100, areaM2 := 200, areaHa := 1/50,
        meanVal := 1/2, minVal := 0, maxVal := 1, crs := "EPSG:32633",
        xmin := 0, ymin := 0, xmax := 20, ymax := 10 } := by
    norm_num [computeRun, raster3band, sanitizeProcess, sanitize, validValues,
      List.filterMap_cons, min_def, max_def]
  refine ⟨rfl, ?_, ?_, ?_⟩ <;>
    simp [runPipeline, upload3band, h, Except.isOk, Except.toBool]

/-- C4 (amended): the band count is never validated and no validation
precedes the write: every run's first two side effects are the directory
creation and the upload written to disk, both before the raster is opened,
and no run fails with `UnsupportedBandCountError`; a multi-band raster is
processed normally using band 1 alone. -/
theorem c4_write_precedes_decode (up : Upload) (now : String) :
    (runPipeline up now).1.take 3 = [.makeDir, .fileWrite, .rasterOpen] ∧
    (runPipeline up now).2 ≠ .error .unsupportedBandCount := by
  unfold runPipeline
  cases hd : up.decodesTo with
  | none => simp
  | some r =>
    cases hc : computeRun r with
    | ok s => simp [hc]
    | error e =>
      have he := computeRun_error_eq r e hc
      subst he
      simp [hc]

/-- C5: for every successful run, pixel area is the absolute value of the
product of the transform's horizontal and vertical scale terms, total area
is valid pixel count × pixel area, and hectare area is total area / 10000. -/
theorem c5_area_formulas (r : Raster) (s : StatsRecord)
    (h : computeRun r = .ok s) :
    s.pixelArea = |r.tA * r.tE| ∧
    s.areaM2 = (s.validCount : ℚ) * s.pixelArea ∧
    s.areaHa = s.areaM2 / 10000 := by
  unfold computeRun at h
  split at h
  · exact absurd h (by simp)
  · rw [Except.ok.injEq] at h
    subst h
    refine ⟨rfl, by push_cast; ring, rfl⟩

/-- C5, witness: the area formulas discharged on the 4×4 scenario. -/
theorem c5_area_formulas_witness :
    stats4.pixelArea = |raster4.tA * raster4.tE| ∧
    stats4.areaM2 = (stats4.validCount : ℚ) * stats4.pixelArea ∧
    stats4.areaHa = stats4.areaM2 / 10000 :=
  c5_area_formulas raster4 stats4 computeRun_raster4_eq

/-- C6, counterexample: the preview's value-to-color mapping is not a fixed
function of the value. The rasters with bands [[0, 1]] and [[1, 2]] both
contain the value 1, yet render it at opposite ends of the colormap,
because `plt.imshow` is called without `vmin`/`vmax` and autoscales to each
raster's own range. -/
theorem c6_counterexample :
    rasterA.band1 = [[0, 1]] ∧ rasterB.band1 = [[1, 2]] ∧
    previewImage (sanitizeProcess rasterA) = [[.rdylgn 0, .rdylgn 1]] ∧
    previewImage (sanitizeProcess rasterB) = [[.rdylgn 0, .rdylgn 1]] ∧
    previewColor (sanitizeProcess rasterA) (some 1)
      ≠ previewColor (sanitizeProcess rasterB) (some 1) := by
  refine ⟨rfl, rfl, ?_, ?_, ?_⟩ <;>
    norm_num [previewImage, previewColor, autoNorm, listMinQ, listMaxQ,
      validValues, sanitizeProcess, sanitize, rasterA, rasterB,
      List.filterMap_cons, min_def, max_def]

/-- C6 (amended): the preview renderer applies matplotlib's default
data-driven normalization: each raster's finite values are rescaled
linearly to the raster's own minimum and maximum before the RdYlGn
colormap is sampled — the raster's own minimum lands at the low end and
its maximum at the high end, rather than the mapping being anchored at the
domain bounds -1 and +1 — and missing elements render as the colormap's
designated no-data color. -/
theorem c6_autoscaled_normalization (arr : List (List (Option ℚ))) (lo hi : ℚ)
    (hlo : listMinQ (validValues arr) = some lo)
    (hhi : listMaxQ (validValues arr) = some hi) (hne : lo ≠ hi) :
    previewColor arr none = .missing ∧
    (∀ v : ℚ, previewColor arr (some v) = .rdylgn ((v - lo) / (hi - lo))) ∧
    autoNorm arr lo = 0 ∧ autoNorm arr hi = 1 := by
  have hsub : hi - lo ≠ 0 := sub_ne_zero.mpr (Ne.symm hne)
  refine ⟨rfl, ?_, ?_, ?_⟩
  · intro v
    simp [previewColor, autoNorm, hlo, hhi, hne]
  · simp [autoNorm, hlo, hhi, hne]
  · simp [autoNorm, hlo, hhi, hne, div_self hsub]

/-- C6 (amended), witness: the autoscaled normalization discharged on the
raster with band [[0, 1]]. -/
theorem c6_autoscaled_normalization_witness :
    previewColor (sanitizeProcess rasterA) none = .missing ∧
    (∀ v : ℚ, previewColor (sanitizeProcess rasterA) (some v)
      = .rdylgn ((v - 0) / (1 - 0))) ∧
    autoNorm (sanitizeProcess rasterA) 0 = 0 ∧
    autoNorm (sanitizeProcess rasterA) 1 = 1 :=
  c6_autoscaled_normalization (sanitizeProcess rasterA) 0 1
    (by norm_num [listMinQ, validValues, sanitizeProcess, sanitize, rasterA,
      List.filterMap_cons, min_def])
    (by norm_num [listMaxQ, validValues, sanitizeProcess, sanitize, rasterA,
      List.filterMap_cons, max_def])
    (by norm_num)

/-- C7: the metadata text block renders, in source order, the coordinate
reference, the extent with each of xmin, ymin, xmax, ymax at exactly 2
decimal places whatever the input value, the area in square meters with
grouped thousands and in hectares at 2 decimals, the mean, min and max
NDVI each at exactly 4 decimal places, and the generation timestamp. -/
theorem c7_metadata_block (s : StatsRecord) (now : String) :
    metadataLines s now =
      [ "Projection: " ++ s.crs,
        "Extent (xmin, ymin, xmax, ymax): " ++ formatFixed s.xmin 2 ++ ", "
          ++ formatFixed s.ymin 2 ++ ", " ++ formatFixed s.xmax 2 ++ ", "
          ++ formatFixed s.ymax 2,
        "Area: " ++ formatGrouped s.areaM2 2 ++ " m2 (" ++ formatFixed s.areaHa 2 ++ " ha)",
        "Mean NDVI: " ++ formatFixed s.meanVal 4,
        "Min NDVI: " ++ formatFixed s.minVal 4,
        "Max NDVI: " ++ formatFixed s.maxVal 4,
        "Processed on: " ++ now ] ∧
    (∀ q : ℚ, decimalPlaces (formatFixed q 2) = 2) ∧
    (∀ q : ℚ, decimalPlaces (formatFixed q 4) = 4) ∧
    (∀ q : ℚ, decimalPlaces (formatGrouped q 2) = 2) :=
  ⟨rfl, fun q => decimalPlaces_formatFixed q 2, fun q => decimalPlaces_formatFixed q 4,
   fun q => decimalPlaces_formatGrouped q 2⟩

/-- C8: whenever the histogram panel is produced from a found raster, it
bins exactly the non-missing values into exactly 30 bins and overlays the
mean, min and max markers, whose (color, linestyle) styles are pairwise
distinct; when no raster file is found the panel is the explicit
placeholder message. -/
theorem c8_histogram_panel (a : List (List (Option ℚ))) (x : ℚ) (rest : List ℚ)
    (h : validValues a = x :: rest) :
    histPanelOf (some a) = .ok (.histogram (validValues a) 30
      [ { pos := (x :: rest).sum / ((x :: rest).length : ℚ), color := "blue", style := "--" },
        { pos := rest.foldl min x, color := "red", style := ":" },
        { pos := rest.foldl max x, color := "orange", style := ":" } ]) ∧
    (("blue", "--") ≠ ("red", ":") ∧ ("blue", "--") ≠ ("orange", ":") ∧
      ("red", ":") ≠ ("orange", ":")) ∧
    histPanelOf none = .ok (.placeholder "Histogram data not found") := by
  refine ⟨?_, by refine ⟨by decide, by decide, by decide⟩, rfl⟩
  rw [h]
  simp [histPanelOf, h]

/-- C8, witness: the histogram panel discharged on the raster with band
[[0, 1]], whose valid values are [0, 1]. -/
theorem c8_histogram_panel_witness :
    histPanelOf (some (sanitizeProcess rasterA))
      = .ok (.histogram (validValues (sanitizeProcess rasterA)) 30
        [ { pos := ([(0 : ℚ), 1]).sum / (([(0 : ℚ), 1]).length : ℚ), color := "blue", style := "--" },
          { pos := [(1 : ℚ)].foldl min 0, color := "red", style := ":" },
          { pos := [(1 : ℚ)].foldl max 0, color := "orange", style := ":" } ]) ∧
    (("blue", "--") ≠ ("red", ":") ∧ ("blue", "--") ≠ ("orange", ":") ∧
      ("red", ":") ≠ ("orange", ":")) ∧
    histPanelOf none = .ok (.placeholder "Histogram data not found") :=
  c8_histogram_panel (sanitizeProcess rasterA) 0 [1]
    (by norm_num [validValues, sanitizeProcess, sanitize, rasterA,
      List.filterMap_cons])

/-- C9: two runs on the same upload differ only in the wall-clock time they
embed: the event traces, statistics records and previews are identical,
and of the 7 metadata lines only the final "Processed on" line carries the
timestamp. -/
theorem c9_rerun_deterministic (up : Upload) (t1 t2 : String) :
    (runPipeline up t1).1 = (runPipeline up t2).1 ∧
    (runPipeline up t1).2.map RunArtifacts.stats
      = (runPipeline up t2).2.map RunArtifacts.stats ∧
    (runPipeline up t1).2.map RunArtifacts.preview
      = (runPipeline up t2).2.map RunArtifacts.preview ∧
    ∀ a1 a2, (runPipeline up t1).2 = .ok a1 → (runPipeline up t2).2 = .ok a2 →
      a1.metadata.dropLast = a2.metadata.dropLast ∧
      a1.metadata.getLast? = some ("Processed on: " ++ t1) ∧
      a2.metadata.getLast? = some ("Processed on: " ++ t2) := by
  unfold runPipeline
  cases hd : up.decodesTo with
  | none => simp
  | some r =>
    cases hc : computeRun r with
    | error e => simp [hc]
    | ok s =>
      refine ⟨by simp [hc], by simp [hc, Except.map], by simp [hc, Except.map], ?_⟩
      intro a1 a2 h1 h2
      simp only [hc] at h1 h2
      rw [Except.ok.injEq] at h1 h2
      subst h1
      subst h2
      simp [metadataLines, List.dropLast, List.getLast?]

/-- C10: the mean, min and max `generate_pdf_report` recomputes from the
saved GeoTIFF for its histogram markers agree with the ones
`process_ndvi_raster` computed (and wrote into the metadata block), on
every raster — both sides apply the identical nodata-only sanitization to
band 1, and both raise the same `ValueError` in the empty case. -/
theorem c10_pdf_stats_match_pipeline (r : Raster) :
    pdfRecomputedStats r
      = (computeRun r).map (fun s => (s.meanVal, s.minVal, s.maxVal)) := by
  have hsan : sanitizePdf r = sanitizeProcess r := rfl
  unfold pdfRecomputedStats computeRun
  rw [hsan]
  cases hv : validValues (sanitizeProcess r) with
  | nil => rfl
  | cons x rest => rfl

end NdviApp
